import Mathlib

/-!
Verification of the plan → execute → verify pipeline.

This file gives a shallow embedding of the repository's core components and
proves the specification's claims about them:

* `src/tools/github_tool.py` and `src/tools/news_tool.py` — the two HTTP tool
  adapters.  Only their response handling is modelled: the outcome of the
  HTTP request (a transport failure, or the decoded JSON payload) is passed
  in as an explicit `Except` argument, since the network itself is external.
* `src/agents/executor.py` — `ExecutorAgent` with `execute_plan`,
  `_execute_step` and the three `_call_*` helpers.  The external effects a
  step may perform (the GitHub request, the news request, the language-model
  call) are collected in a `StepEnv` oracle.
* `src/agents/verifier.py` — `VerifierAgent.verify_and_format`.  The
  model-generated summary text is passed in as an argument (the summary call
  is a free-text LLM invocation whose result the verifier merely stores).
* `src/llm/groq_client.py` — the code-fence stripping and JSON-parsing logic
  of `generate_structured_output`.  JSON decoding plus pydantic validation of
  the target model is abstracted as a `parse` function carried by a `Shape`.

Python strings are modelled as Lean `String`s, with the handful of Python
`str` operations used by the source (`lower`, `strip`, `startswith`,
`endswith`, slicing, substring containment) defined below over the
character list so that they compute by `decide` and admit list-level proofs.
Python `dict`s keyed by strings are modelled as association lists with
Python's insertion-order update semantics (`dict_set`).  Machine integers in
this code base are unbounded Python `int`s, so `Int`/`Nat` are used directly.
-/

/-- Python `str.lower()` applied characterwise (the source only lowercases
ASCII tool/action names). -/
def py_lower (s : String) : String := ⟨s.data.map Char.toLower⟩

/-- Python `str.strip()`: remove leading and trailing whitespace. -/
def py_strip (s : String) : String :=
  ⟨List.rdropWhile Char.isWhitespace (s.data.dropWhile Char.isWhitespace)⟩

/-- Python `str.startswith(pre)`. -/
def py_startswith (s pre : String) : Bool := pre.data.isPrefixOf s.data

/-- Python `str.endswith(suf)`. -/
def py_endswith (s suf : String) : Bool := suf.data.isSuffixOf s.data

/-- Python slice `s[n:]` (by code points). -/
def py_drop (s : String) (n : Nat) : String := ⟨s.data.drop n⟩

/-- Python slice `s[:n]` (by code points). -/
def py_take (s : String) (n : Nat) : String := ⟨s.data.take n⟩

/-- Python slice `s[:-n]` (by code points). -/
def py_droplast (s : String) (n : Nat) : String := ⟨s.data.take (s.data.length - n)⟩

/-- Contiguous-sublist test on character lists, used to model Python's
`sub in s` substring operator. -/
def charsContains (sub : List Char) : List Char → Bool
  | [] => sub.isEmpty
  | a :: t => sub.isPrefixOf (a :: t) || charsContains sub t

/-- Python `sub in s` on strings. -/
def strContains (s sub : String) : Bool := charsContains sub.data s.data

/-- Python dict assignment `d[k] = v` on an insertion-ordered string-keyed
dictionary: overwrite in place when the key exists, append otherwise. -/
def dict_set {β : Type} (d : List (String × β)) (k : String) (v : β) :
    List (String × β) :=
  if d.any (fun p => p.1 == k) then
    d.map (fun p => if p.1 == k then (k, v) else p)
  else
    d ++ [(k, v)]

/-! ### Tool adapters (`src/tools/github_tool.py`, `src/tools/news_tool.py`)

Each raw item structure mirrors the JSON object fields the adapter reads;
fields accessed with `dict.get` and a default are `Option`s, fields indexed
directly (which the adapter assumes present) are plain. -/

/-- One element of the GitHub search response's `items` array, restricted to
the fields `GitHubTool.search_repositories` reads. -/
structure RawRepoItem where
  name : String
  full_name : String
  description : Option String := none
  stargazers_count : Nat
  forks_count : Nat
  language : Option String := none
  html_url : String
  topics : Option (List String) := none
deriving DecidableEq

/-- Normalized repository record built by `GitHubTool.search_repositories`. -/
structure RepoInfo where
  name : String
  full_name : String
  description : String
  stars : Nat
  forks : Nat
  language : String
  url : String
  topics : List String
deriving DecidableEq

/-- An element of the list returned by the GitHub adapter: either a
normalized repository record or the in-band `{"error": ...}` record. -/
inductive RepoResult where
  | repo : RepoInfo → RepoResult
  | error : String → RepoResult
deriving DecidableEq

/-- Response handling of `GitHubTool.search_repositories` (github_tool.py
lines 43–73).  The `transport` argument is the outcome of the HTTP GET:
`Except.error e` is a raised `requests.exceptions.RequestException` with
message `e`; `Except.ok items` is the decoded `items` array of a successful
response.  The query/sort/limit only shape the outgoing request, which is
not modelled, so they do not appear. -/
def search_repositories (transport : Except String (List RawRepoItem)) :
    List RepoResult :=
  match transport with
  | Except.error e => [RepoResult.error ("GitHub API error: " ++ e)]
  | Except.ok items =>
      items.map (fun it => RepoResult.repo
        { name := it.name
          full_name := it.full_name
          description := it.description.getD "No description"
          stars := it.stargazers_count
          forks := it.forks_count
          language := it.language.getD "Unknown"
          url := it.html_url
          topics := it.topics.getD [] })

/-- `GitHubTool.get_trending_repos` builds a date-restricted query and
delegates to `search_repositories`; its response handling is identical. -/
def get_trending_repos (transport : Except String (List RawRepoItem)) :
    List RepoResult :=
  search_repositories transport

/-- The `source` sub-object of a NewsAPI article. -/
structure RawSource where
  name : Option String := none
deriving DecidableEq

/-- One element of a NewsAPI response's `articles` array, restricted to the
fields the news adapter reads (all via `dict.get` with defaults). -/
structure RawArticle where
  title : Option String := none
  description : Option String := none
  source : Option RawSource := none
  author : Option String := none
  url : Option String := none
  publishedAt : Option String := none
  content : Option String := none
deriving DecidableEq

/-- Decoded JSON body of a NewsAPI response: `status` and `message` are read
with `dict.get`, `articles` with `dict.get(..., [])`. -/
structure NewsApiResponse where
  status : Option String := none
  message : Option String := none
  articles : List RawArticle := []
deriving DecidableEq

/-- Normalized article record built by `NewsTool.get_tech_news`. -/
structure TechArticle where
  title : String
  description : String
  source : String
  author : String
  url : String
  published_at : String
  content : String
deriving DecidableEq

/-- Normalized headline record built by `NewsTool.get_top_headlines`. -/
structure Headline where
  title : String
  description : String
  source : String
  url : String
  published_at : String
deriving DecidableEq

/-- An element of the list returned by the news adapter: a normalized
article or headline, or the in-band `{"error": ...}` record. -/
inductive NewsResult where
  | article : TechArticle → NewsResult
  | headline : Headline → NewsResult
  | error : String → NewsResult
deriving DecidableEq

/-- Response handling of `NewsTool.get_tech_news` (news_tool.py lines
42–80).  `transport` is the outcome of the HTTP GET against the
`/everything` endpoint (`Except.error e` = raised RequestException). -/
def get_tech_news (transport : Except String NewsApiResponse) :
    List NewsResult :=
  match transport with
  | Except.error e => [NewsResult.error ("NewsAPI request failed: " ++ e)]
  | Except.ok data =>
      if data.status ≠ some "ok" then
        [NewsResult.error ("NewsAPI error: " ++ data.message.getD "Unknown error")]
      else
        data.articles.map (fun a => NewsResult.article
          { title := a.title.getD "No title"
            description := a.description.getD "No description"
            source := (a.source.bind (fun src => src.name)).getD "Unknown"
            author := a.author.getD "Unknown"
            url := a.url.getD ""
            published_at := a.publishedAt.getD ""
            content := py_take (a.content.getD "") 200 })

/-- Response handling of `NewsTool.get_top_headlines` (news_tool.py lines
99–129). -/
def get_top_headlines (transport : Except String NewsApiResponse) :
    List NewsResult :=
  match transport with
  | Except.error e => [NewsResult.error ("NewsAPI request failed: " ++ e)]
  | Except.ok data =>
      if data.status ≠ some "ok" then
        [NewsResult.error ("NewsAPI error: " ++ data.message.getD "Unknown error")]
      else
        data.articles.map (fun a => NewsResult.headline
          { title := a.title.getD "No title"
            description := a.description.getD "No description"
            source := (a.source.bind (fun src => src.name)).getD "Unknown"
            url := a.url.getD ""
            published_at := a.publishedAt.getD "" })

/-! ### Planner data model (`src/agents/planner.py`) -/

/-- The step parameter dictionary, restricted to the keys the executor ever
reads (`query`, `category`, `country`, `language`, `sort`, `prompt`,
`limit`), each `none` when the key is absent.  This types the heterogeneous
Python dict as the executor's `dict.get` calls assume it. -/
structure StepParams where
  query : Option String := none
  category : Option String := none
  country : Option String := none
  language : Option String := none
  sort : Option String := none
  prompt : Option String := none
  limit : Option Nat := none
deriving DecidableEq

/-- `PlanStep` (planner.py lines 9–15). -/
structure PlanStep where
  step_number : Int
  action : String
  tool : String
  parameters : StepParams := {}
  reasoning : String := ""
deriving DecidableEq

/-- `ExecutionPlan` (planner.py lines 17–21). -/
structure ExecutionPlan where
  task_description : String
  steps : List PlanStep
  expected_outcome : String := ""
deriving DecidableEq

/-! ### Executor (`src/agents/executor.py`) -/

/-- The payload dictionary a `_call_*` helper returns: `{"repos": [...]}`,
`{"articles": [...]}` or `{"summary": ...}`. -/
inductive ToolData where
  | repos : List RepoResult → ToolData
  | articles : List NewsResult → ToolData
  | summary : String → ToolData
deriving DecidableEq

/-- The `data` field of a `StepResult`: the empty dict `{}` on the error
paths, or a tool payload on success. -/
inductive StepData where
  | empty : StepData
  | tool : ToolData → StepData
deriving DecidableEq

/-- `StepResult` (executor.py lines 13–20). -/
structure StepResult where
  step_number : Int
  action : String
  tool_used : String
  status : String
  data : StepData
  error_message : String := ""
deriving DecidableEq

/-- `ExecutionResult` (executor.py lines 22–26). -/
structure ExecutionResult where
  plan_description : String
  step_results : List StepResult
  overall_status : String
deriving DecidableEq

/-- Oracle for the external effects one step may perform: the transport
outcome of a GitHub search request, the transport outcome of a news
request, and the behaviour of `GroqLLMClient.generate_text` (which,
unlike the adapters, propagates exceptions — modelled as `Except.error`
carrying Python's `str(e)`). -/
structure StepEnv where
  githubHttp : Except String (List RawRepoItem)
  newsHttp : Except String NewsApiResponse
  llm : String → Except String String

/-- The GitHub adapter invocation `_call_github_tool` decides on
(executor.py lines 127–145). -/
inductive GithubCall where
  | trending : String → Nat → GithubCall
  | search : String → String → Nat → GithubCall
deriving DecidableEq

/-- The news adapter invocation `_call_news_tool` decides on
(executor.py lines 147–164). -/
inductive NewsCall where
  | top_headlines : String → String → Nat → NewsCall
  | tech_news : String → Nat → NewsCall
deriving DecidableEq

/-- Method selection and parameter extraction of
`ExecutorAgent._call_github_tool` (executor.py lines 127–145). -/
def github_call (step : PlanStep) : GithubCall :=
  let action := py_lower step.action
  if strContains action "trending" then
    GithubCall.trending (step.parameters.language.getD "python")
      (step.parameters.limit.getD 5)
  else if strContains action "search" then
    GithubCall.search (step.parameters.query.getD "language:python")
      (step.parameters.sort.getD "stars") (step.parameters.limit.getD 5)
  else
    GithubCall.search "language:python" "stars" 5

/-- Method selection and parameter extraction of
`ExecutorAgent._call_news_tool` (executor.py lines 147–164), including the
fallback that replaces an empty or whitespace-only query with
`"technology"`. -/
def news_call (step : PlanStep) : NewsCall :=
  let action := py_lower step.action
  if strContains action "headline" then
    NewsCall.top_headlines (step.parameters.category.getD "technology")
      (step.parameters.country.getD "us") (step.parameters.limit.getD 5)
  else
    let query := step.parameters.query.getD "technology"
    let query := if query = "" ∨ py_strip query = "" then "technology" else query
    NewsCall.tech_news query (step.parameters.limit.getD 5)

/-- Interpretation of a decided GitHub call against the transport oracle;
both adapter methods share the response handling of
`search_repositories`. -/
def run_github_call (env : StepEnv) : GithubCall → ToolData
  | GithubCall.trending _ _ => ToolData.repos (get_trending_repos env.githubHttp)
  | GithubCall.search _ _ _ => ToolData.repos (search_repositories env.githubHttp)

/-- Interpretation of a decided news call against the transport oracle. -/
def run_news_call (env : StepEnv) : NewsCall → ToolData
  | NewsCall.top_headlines _ _ _ => ToolData.articles (get_top_headlines env.newsHttp)
  | NewsCall.tech_news _ _ => ToolData.articles (get_tech_news env.newsHttp)

/-- `ExecutorAgent._call_github_tool`: returns `{"repos": [...]}`. -/
def _call_github_tool (env : StepEnv) (step : PlanStep) : ToolData :=
  run_github_call env (github_call step)

/-- `ExecutorAgent._call_news_tool`: returns `{"articles": [...]}`. -/
def _call_news_tool (env : StepEnv) (step : PlanStep) : ToolData :=
  run_news_call env (news_call step)

/-- `ExecutorAgent._call_llm` (executor.py lines 166–172): calls
`generate_text` with the step's prompt parameter (default
`"Summarize the data"`); an exception raised by the client propagates. -/
def _call_llm (env : StepEnv) (step : PlanStep) : Except String ToolData :=
  (env.llm (step.parameters.prompt.getD "Summarize the data")).map ToolData.summary

/-- The routing decision of `_execute_step` (executor.py lines 90–99):
case-insensitive substring match on the step's tool field, github before
news before llm. -/
inductive ToolRoute where
  | github : ToolRoute
  | news : ToolRoute
  | llm : ToolRoute
  | unknown : ToolRoute
deriving DecidableEq

/-- Routing of `_execute_step`: `tool_name = step.tool.lower()`, then the
`if "github" in tool_name / elif "news" / elif "llm" / else` chain. -/
def tool_route (step : PlanStep) : ToolRoute :=
  let tool_name := py_lower step.tool
  if strContains tool_name "github" then ToolRoute.github
  else if strContains tool_name "news" then ToolRoute.news
  else if strContains tool_name "llm" then ToolRoute.llm
  else ToolRoute.unknown

/-- The success-path `StepResult` of `_execute_step` (executor.py lines
109–115): `error_message` keeps its `""` default. -/
def success_result (step : PlanStep) (d : ToolData) : StepResult :=
  { step_number := step.step_number
    action := step.action
    tool_used := step.tool
    status := "success"
    data := StepData.tool d
    error_message := "" }

/-- The `except Exception` branch of `_execute_step` (executor.py lines
117–125): status `"error"`, empty payload, `error_message = str(e)`. -/
def caught_error_result (step : PlanStep) (e : String) : StepResult :=
  { step_number := step.step_number
    action := step.action
    tool_used := step.tool
    status := "error"
    data := StepData.empty
    error_message := e }

/-- `ExecutorAgent._execute_step` (executor.py lines 80–125).  The adapters
catch their own transport failures (they are total here), so the only
exception source inside the `try` block is the language-model call. -/
def _execute_step (env : StepEnv) (step : PlanStep) : StepResult :=
  match tool_route step with
  | ToolRoute.github => success_result step (_call_github_tool env step)
  | ToolRoute.news => success_result step (_call_news_tool env step)
  | ToolRoute.llm =>
      match _call_llm env step with
      | Except.ok d => success_result step d
      | Except.error e => caught_error_result step e
  | ToolRoute.unknown =>
      { step_number := step.step_number
        action := step.action
        tool_used := step.tool
        status := "error"
        data := StepData.empty
        error_message := "Unknown tool: " ++ step.tool }

/-- Overall-status computation of `execute_plan` (executor.py lines
65–72). -/
def overall_status_of (step_results : List StepResult) : String :=
  let success_count := step_results.countP (fun r => r.status == "success")
  if success_count = step_results.length then "success"
  else if 0 < success_count then "partial_failure"
  else "failure"

/-- `ExecutorAgent.execute_plan` (executor.py lines 49–78): run every step
in order, then derive the overall status from the success count. -/
def execute_plan (env : PlanStep → StepEnv) (plan : ExecutionPlan) :
    ExecutionResult :=
  let step_results := plan.steps.map (fun s => _execute_step (env s) s)
  { plan_description := plan.task_description
    step_results := step_results
    overall_status := overall_status_of step_results }

/-! ### Verifier (`src/agents/verifier.py`) -/

/-- `VerificationResult` (verifier.py lines 11–18).  `data` is the
insertion-ordered dict keyed `step_{n}`; `confidence_score` is the exact
rational value of the Python float division. -/
structure VerificationResult where
  original_task : String
  is_complete : Bool
  summary : String
  data : List (String × StepData)
  issues : List String
  confidence_score : ℚ
deriving DecidableEq

/-- The dict key `f"step_{step_result.step_number}"` (verifier.py line 58). -/
def step_key (r : StepResult) : String := "step_" ++ toString r.step_number

/-- The issue string `f"Step {n} failed: {message}"` (verifier.py line 60). -/
def issue_line (r : StepResult) : String :=
  "Step " ++ toString r.step_number ++ " failed: " ++ r.error_message

/-- The collection loop of `verify_and_format` (verifier.py lines 52–60):
successes go into the data dict, failures append an issue string. -/
def collect_results (step_results : List StepResult) :
    List (String × StepData) × List String :=
  step_results.foldl
    (fun acc r =>
      if r.status == "success" then (dict_set acc.1 (step_key r) r.data, acc.2)
      else (acc.1, acc.2 ++ [issue_line r]))
    ([], [])

/-- `VerifierAgent.verify_and_format` (verifier.py lines 32–76).  The
`summaryText` argument stands for the return value of the free-text
summary call `_generate_summary` (external LLM); the `_plan` parameter is
received but unused, as in the source. -/
def verify_and_format (original_task : String) (_plan : ExecutionPlan)
    (execution_result : ExecutionResult) (summaryText : String) :
    VerificationResult :=
  let is_complete := execution_result.overall_status == "success"
  let collected := collect_results execution_result.step_results
  let success_rate : ℚ :=
    ((execution_result.step_results.countP (fun r => r.status == "success") : ℚ)) /
      ((execution_result.step_results.length : ℚ))
  { original_task := original_task
    is_complete := is_complete
    summary := summaryText
    data := collected.1
    issues := collected.2
    confidence_score := success_rate }

/-! ### Language-model client (`src/llm/groq_client.py`) -/

/-- A pydantic output model as `generate_structured_output` sees it: its
class name and its combined `json.loads` + validation step, which either
yields a value or fails with the Python exception text. -/
structure Shape (α : Type) where
  name : String
  parse : String → Except String α

/-- The response-cleaning block of `generate_structured_output`
(groq_client.py lines 66–74): strip, drop a leading ` ```json `, drop a
leading ` ``` `, drop a trailing ` ``` `, strip again. -/
def clean_response (raw : String) : String :=
  let t0 := py_strip raw
  let t1 := if py_startswith t0 "```json" then py_drop t0 7 else t0
  let t2 := if py_startswith t1 "```" then py_drop t1 3 else t1
  let t3 := if py_endswith t2 "```" then py_droplast t2 3 else t2
  py_strip t3

/-- Parsing and error reporting of `GroqLLMClient.generate_structured_output`
(groq_client.py lines 66–83), applied to the raw model response text.  On
parse/validation failure it fails with the `ValueError` text, which names
the target model and embeds the cleaned text truncated to 200 characters. -/
def generate_structured_output {α : Type} (shape : Shape α)
    (response_text : String) : Except String α :=
  let cleaned := clean_response response_text
  match shape.parse cleaned with
  | Except.ok v => Except.ok v
  | Except.error e =>
      Except.error ("Failed to parse LLM response as " ++ shape.name ++ ": " ++ e ++
        "\nResponse: " ++ py_take cleaned 200)

/-! ### Shared lemmas -/

/-- Unfolding lemma: the step-result list of `execute_plan`. -/
lemma execute_plan_step_results (env : PlanStep → StepEnv) (plan : ExecutionPlan) :
    (execute_plan env plan).step_results =
      plan.steps.map (fun s => _execute_step (env s) s) := rfl

/-- Unfolding lemma: the overall status of `execute_plan`. -/
lemma execute_plan_overall_status (env : PlanStep → StepEnv) (plan : ExecutionPlan) :
    (execute_plan env plan).overall_status =
      overall_status_of (plan.steps.map (fun s => _execute_step (env s) s)) := rfl

/-- The success count equals the list length iff every step succeeded. -/
lemma countP_success_eq_length_iff (l : List StepResult) :
    l.countP (fun r => r.status == "success") = l.length ↔
      ∀ r ∈ l, r.status = "success" := by
  rw [List.countP_eq_length]
  simp

/-- The success count is positive iff some step succeeded. -/
lemma countP_success_pos_iff (l : List StepResult) :
    0 < l.countP (fun r => r.status == "success") ↔
      ∃ r ∈ l, r.status = "success" := by
  rw [List.countP_pos_iff]
  simp

/-- The success count is zero iff no step succeeded. -/
lemma countP_success_eq_zero_iff (l : List StepResult) :
    l.countP (fun r => r.status == "success") = 0 ↔
      ∀ r ∈ l, r.status ≠ "success" := by
  rw [List.countP_eq_zero]
  simp

/-! ### C10 — empty plan -/

/-- C10: for an `ExecutionPlan` with an empty step list, `execute_plan`
does not fail: it returns an `ExecutionResult` with an empty
`step_results` list and `overall_status = "success"` (the
all-steps-succeeded branch holds vacuously, since `0 = len([])`). -/
theorem execute_plan_empty_steps_success (env : PlanStep → StepEnv) (d e : String) :
    execute_plan env { task_description := d, steps := [], expected_outcome := e } =
      { plan_description := d, step_results := [], overall_status := "success" } := rfl

/-! ### C5 — completion flag -/

/-- C5: `verify_and_format` sets `is_complete` to true iff the
`ExecutionResult`'s `overall_status` is exactly `"success"`; in particular
`"partial_failure"` yields `is_complete = false`. -/
theorem verifier_is_complete_iff_success (t : String) (plan : ExecutionPlan)
    (er : ExecutionResult) (s : String) :
    ((verify_and_format t plan er s).is_complete = true ↔
      er.overall_status = "success") ∧
    (er.overall_status = "partial_failure" →
      (verify_and_format t plan er s).is_complete = false) := by
  have h : (verify_and_format t plan er s).is_complete =
      (er.overall_status == "success") := rfl
  refine ⟨?_, ?_⟩
  · rw [h]
    exact beq_iff_eq
  · intro hp
    rw [h, hp]
    decide

/-- Sample execution result with one success and one failure, with overall
status `"partial_failure"` as the executor would assign it. -/
def er_mixed : ExecutionResult :=
  { plan_description := "p"
    step_results :=
      [{ step_number := 1, action := "a", tool_used := "llm", status := "success",
         data := StepData.tool (ToolData.summary "s"), error_message := "" },
       { step_number := 2, action := "b", tool_used := "SlackTool", status := "error",
         data := StepData.empty, error_message := "Unknown tool: SlackTool" }]
    overall_status := "partial_failure" }

/-- Placeholder plan used where `verify_and_format` ignores its plan
argument. -/
def plan_none : ExecutionPlan := { task_description := "t", steps := [] }

/-- Witness for C5: a partial-failure result is not complete. -/
theorem verifier_is_complete_iff_success_witness :
    (verify_and_format "t" plan_none er_mixed "sum").is_complete = false :=
  (verifier_is_complete_iff_success "t" plan_none er_mixed "sum").2 rfl

/-! ### C2 — dispatch routing -/

/-- C2: `_execute_step` dispatch is a deterministic function of the step's
tool field: case-insensitive substring matching, checked in the fixed
priority order github, then news, then llm; a step matching none of the
three yields a `StepResult` with status `"error"` and a message naming the
unrecognized tool, and that result is the same for every environment — no
adapter or language-model call is consulted. -/
theorem dispatch_priority_and_unknown_tool (step : PlanStep) :
    (strContains (py_lower step.tool) "github" = true →
      tool_route step = ToolRoute.github) ∧
    (strContains (py_lower step.tool) "github" = false →
      strContains (py_lower step.tool) "news" = true →
      tool_route step = ToolRoute.news) ∧
    (strContains (py_lower step.tool) "github" = false →
      strContains (py_lower step.tool) "news" = false →
      strContains (py_lower step.tool) "llm" = true →
      tool_route step = ToolRoute.llm) ∧
    (strContains (py_lower step.tool) "github" = false →
      strContains (py_lower step.tool) "news" = false →
      strContains (py_lower step.tool) "llm" = false →
      tool_route step = ToolRoute.unknown ∧
      ∀ env : StepEnv, _execute_step env step =
        { step_number := step.step_number
          action := step.action
          tool_used := step.tool
          status := "error"
          data := StepData.empty
          error_message := "Unknown tool: " ++ step.tool }) := by
  refine ⟨?_, ?_, ?_, ?_⟩
  · intro h1
    simp only [tool_route, h1, if_true]
  · intro h1 h2
    simp only [tool_route, h1, h2, if_true, Bool.false_eq_true, if_false]
  · intro h1 h2 h3
    simp only [tool_route, h1, h2, h3, if_true, Bool.false_eq_true, if_false]
  · intro h1 h2 h3
    have hr : tool_route step = ToolRoute.unknown := by
      simp only [tool_route, h1, h2, h3, Bool.false_eq_true, if_false]
    refine ⟨hr, fun env => ?_⟩
    unfold _execute_step
    rw [hr]

/-- Step whose tool field matches none of the three dispatch tokens. -/
def step_unknown_tool : PlanStep :=
  { step_number := 2, action := "post to slack", tool := "SlackTool" }

/-- Environment whose oracles would all be observable if consulted. -/
def env_sample : StepEnv :=
  { githubHttp := Except.error "timeout"
    newsHttp := Except.ok { status := some "ok" }
    llm := fun _ => Except.ok "llm text" }

/-- Witness for C2: a step with tool `"SlackTool"` produces the immediate
per-step error naming the tool. -/
theorem dispatch_priority_and_unknown_tool_witness :
    _execute_step env_sample step_unknown_tool =
      { step_number := 2
        action := "post to slack"
        tool_used := "SlackTool"
        status := "error"
        data := StepData.empty
        error_message := "Unknown tool: SlackTool" } :=
  ((dispatch_priority_and_unknown_tool step_unknown_tool).2.2.2
    (by decide) (by decide) (by decide)).2 env_sample

/-! ### C1 — plan execution shape and overall status -/

/-- Unfolding lemma: `overall_status_of` written as an if-chain over the
success count. -/
lemma overall_status_of_eq (l : List StepResult) :
    overall_status_of l =
      if l.countP (fun r => r.status == "success") = l.length then "success"
      else if 0 < l.countP (fun r => r.status == "success") then "partial_failure"
      else "failure" := rfl

/-- Characterization of the three overall statuses for a non-empty result
list. -/
lemma overall_status_of_spec (l : List StepResult) (hne : 1 ≤ l.length) :
    (overall_status_of l = "success" ↔ ∀ r ∈ l, r.status = "success") ∧
    (overall_status_of l = "failure" ↔ ∀ r ∈ l, r.status ≠ "success") ∧
    (overall_status_of l = "partial_failure" ↔
      ((∃ r ∈ l, r.status = "success") ∧ ¬ ∀ r ∈ l, r.status = "success")) := by
  have hex : ∃ r, r ∈ l := List.exists_mem_of_length_pos (by omega)
  rw [overall_status_of_eq]
  by_cases hc : l.countP (fun r => r.status == "success") = l.length
  · rw [if_pos hc]
    have hall := (countP_success_eq_length_iff l).mp hc
    obtain ⟨r0, hr0⟩ := hex
    refine ⟨⟨fun _ => hall, fun _ => rfl⟩, ?_, ?_⟩
    · constructor
      · intro h
        exact absurd h (by decide)
      · intro hnone
        exact absurd (hall r0 hr0) (hnone r0 hr0)
    · constructor
      · intro h
        exact absurd h (by decide)
      · rintro ⟨_, hnall⟩
        exact absurd hall hnall
  · by_cases hp : 0 < l.countP (fun r => r.status == "success")
    · rw [if_neg hc, if_pos hp]
      refine ⟨?_, ?_, ?_⟩
      · constructor
        · intro h
          exact absurd h (by decide)
        · intro hall
          exact absurd ((countP_success_eq_length_iff l).mpr hall) hc
      · constructor
        · intro h
          exact absurd h (by decide)
        · intro hnone
          obtain ⟨r, hr, hs⟩ := (countP_success_pos_iff l).mp hp
          exact absurd hs (hnone r hr)
      · constructor
        · intro _
          exact ⟨(countP_success_pos_iff l).mp hp,
            fun hall => hc ((countP_success_eq_length_iff l).mpr hall)⟩
        · intro _
          rfl
    · have hz : l.countP (fun r => r.status == "success") = 0 := by omega
      rw [if_neg hc, if_neg hp]
      have hnone := (countP_success_eq_zero_iff l).mp hz
      obtain ⟨r0, hr0⟩ := hex
      refine ⟨?_, ⟨fun _ => hnone, fun _ => rfl⟩, ?_⟩
      · constructor
        · intro h
          exact absurd h (by decide)
        · intro hall
          exact absurd (hall r0 hr0) (hnone r0 hr0)
      · constructor
        · intro h
          exact absurd h (by decide)
        · rintro ⟨⟨r, hr, hs⟩, _⟩
          exact absurd hs (hnone r hr)

/-- C1: for a plan with at least one step, `execute_plan` returns exactly
one `StepResult` per plan step, in plan order, and `overall_status` is
`"success"` iff every step succeeded, `"failure"` iff none did, and
`"partial_failure"` iff some but not all did. -/
theorem execute_plan_length_order_status (env : PlanStep → StepEnv)
    (plan : ExecutionPlan) (hne : 1 ≤ plan.steps.length) :
    (execute_plan env plan).step_results.length = plan.steps.length ∧
    (∀ i (h1 : i < plan.steps.length)
        (h2 : i < (execute_plan env plan).step_results.length),
      (execute_plan env plan).step_results.get ⟨i, h2⟩ =
        _execute_step (env (plan.steps.get ⟨i, h1⟩)) (plan.steps.get ⟨i, h1⟩)) ∧
    ((execute_plan env plan).overall_status = "success" ↔
      ∀ r ∈ (execute_plan env plan).step_results, r.status = "success") ∧
    ((execute_plan env plan).overall_status = "failure" ↔
      ∀ r ∈ (execute_plan env plan).step_results, r.status ≠ "success") ∧
    ((execute_plan env plan).overall_status = "partial_failure" ↔
      ((∃ r ∈ (execute_plan env plan).step_results, r.status = "success") ∧
        ¬ ∀ r ∈ (execute_plan env plan).step_results, r.status = "success")) := by
  rw [execute_plan_overall_status, execute_plan_step_results]
  have hlen : (plan.steps.map (fun s => _execute_step (env s) s)).length =
      plan.steps.length := List.length_map _ _
  obtain ⟨h1, h2, h3⟩ :=
    overall_status_of_spec (plan.steps.map (fun s => _execute_step (env s) s))
      (by omega)
  refine ⟨hlen, ?_, h1, h2, h3⟩
  intro i hi1 hi2
  simp [List.get_eq_getElem, List.getElem_map]

/-- Two-step plan: one news step that will succeed, one unknown tool. -/
def plan_two : ExecutionPlan :=
  { task_description := "fetch and summarize"
    steps := [{ step_number := 1, action := "fetch tech news", tool := "NewsTool" },
              { step_number := 2, action := "email me", tool := "EmailTool" }] }

/-- Constant per-step environment for witnesses. -/
def env_all : PlanStep → StepEnv := fun _ =>
  { githubHttp := Except.error "timeout"
    newsHttp := Except.ok { status := some "ok" }
    llm := fun _ => Except.ok "text" }

/-- Witness for C1 on a concrete two-step plan. -/
theorem execute_plan_length_order_status_witness :
    (execute_plan env_all plan_two).step_results.length = plan_two.steps.length :=
  (execute_plan_length_order_status env_all plan_two (by decide)).1

/-! ### C4 — transport failures are in-band data, not step errors -/

/-- C4: when the underlying HTTP request fails at the transport level, every
adapter method the executor calls returns (rather than raises) a
single-element list whose element is the in-band error record; consequently
a github-routed step whose request times out still yields a `StepResult`
with status `"success"` whose payload contains that error-tagged record. -/
theorem adapter_transport_error_in_band (e : String) :
    search_repositories (Except.error e) =
      [RepoResult.error ("GitHub API error: " ++ e)] ∧
    get_trending_repos (Except.error e) =
      [RepoResult.error ("GitHub API error: " ++ e)] ∧
    get_tech_news (Except.error e) =
      [NewsResult.error ("NewsAPI request failed: " ++ e)] ∧
    get_top_headlines (Except.error e) =
      [NewsResult.error ("NewsAPI request failed: " ++ e)] ∧
    (∀ (env : StepEnv) (step : PlanStep),
      strContains (py_lower step.tool) "github" = true →
      env.githubHttp = Except.error e →
      (_execute_step env step).status = "success" ∧
      (_execute_step env step).data =
        StepData.tool (ToolData.repos [RepoResult.error ("GitHub API error: " ++ e)])) := by
  refine ⟨rfl, rfl, rfl, rfl, ?_⟩
  intro env step hgit hhttp
  have hr : tool_route step = ToolRoute.github := by
    simp only [tool_route, hgit, if_true]
  have hx : _execute_step env step =
      success_result step (_call_github_tool env step) := by
    unfold _execute_step
    rw [hr]
  have hcall : _call_github_tool env step =
      ToolData.repos [RepoResult.error ("GitHub API error: " ++ e)] := by
    unfold _call_github_tool
    cases hgc : github_call step with
    | trending a b =>
        simp [run_github_call, get_trending_repos, search_repositories, hhttp]
    | search a b c =>
        simp [run_github_call, search_repositories, hhttp]
  rw [hx, hcall]
  exact ⟨rfl, rfl⟩

/-- Github-routed step used in the C4 witness. -/
def step_github : PlanStep :=
  { step_number := 1, action := "search repositories", tool := "GitHubSearchTool" }

/-- Environment whose GitHub request raises a timeout. -/
def env_timeout : StepEnv :=
  { githubHttp := Except.error "HTTPSConnectionPool timeout"
    newsHttp := Except.ok { status := some "ok" }
    llm := fun _ => Except.ok "text" }

/-- Witness for C4: the timed-out github step is a success whose payload
carries the error-tagged record. -/
theorem adapter_transport_error_in_band_witness :
    (_execute_step env_timeout step_github).status = "success" ∧
    (_execute_step env_timeout step_github).data =
      StepData.tool (ToolData.repos
        [RepoResult.error ("GitHub API error: " ++ "HTTPSConnectionPool timeout")]) :=
  (adapter_transport_error_in_band "HTTPSConnectionPool timeout").2.2.2.2
    env_timeout step_github (by decide) rfl

/-! ### C8 — empty news query falls back to "technology" -/

/-- C8: a news step whose action does not select the headline method and
whose `query` parameter is missing or strips to the empty string is
dispatched as a tech-news call with the non-empty query `"technology"`, so
the news API is never sent an empty query. -/
theorem news_empty_query_default (step : PlanStep)
    (hact : strContains (py_lower step.action) "headline" = false)
    (hq : step.parameters.query = none ∨
      ∃ q, step.parameters.query = some q ∧ py_strip q = "") :
    news_call step = NewsCall.tech_news "technology" (step.parameters.limit.getD 5) ∧
    (∀ env : StepEnv, _call_news_tool env step =
      run_news_call env (NewsCall.tech_news "technology" (step.parameters.limit.getD 5))) ∧
    ("technology" : String) ≠ "" := by
  have hmain : news_call step =
      NewsCall.tech_news "technology" (step.parameters.limit.getD 5) := by
    simp only [news_call, hact, Bool.false_eq_true, if_false]
    rcases hq with hnone | ⟨q, hsome, hstrip⟩
    · rw [hnone]
      simp only [Option.getD_none]
      rw [if_neg (by decide)]
    · rw [hsome]
      simp only [Option.getD_some]
      rw [if_pos (Or.inr hstrip)]
  refine ⟨hmain, fun env => ?_, by decide⟩
  unfold _call_news_tool
  rw [hmain]

/-- News step whose query parameter is whitespace-only. -/
def step_news_ws : PlanStep :=
  { step_number := 1, action := "get tech news", tool := "NewsTool",
    parameters := { query := some "   " } }

/-- Witness for C8: the whitespace query is replaced by `"technology"`. -/
theorem news_empty_query_default_witness :
    news_call step_news_ws = NewsCall.tech_news "technology" 5 :=
  (news_empty_query_default step_news_ws (by decide)
    (Or.inr ⟨"   ", rfl, by decide⟩)).1

/-! ### C3 — StepResult invariant -/

/-- Environment whose language-model call raises an exception whose string
form is empty (Python `str(Exception())` is `""`). -/
def env_empty_exc : StepEnv :=
  { githubHttp := Except.error "t"
    newsHttp := Except.ok { status := some "ok" }
    llm := fun _ => Except.error "" }

/-- Step routed to the language model. -/
def step_llm : PlanStep :=
  { step_number := 3, action := "summarize results", tool := "LLM" }

/-- Counterexample to C3 as stated: when the language-model call raises an
exception with an empty message, the executor produces a `StepResult` whose
status is `"error"` and whose payload is empty but whose error message is
empty as well, so "status = error iff error message non-empty" fails. -/
theorem step_result_invariant_counterexample :
    (_execute_step env_empty_exc step_llm).status = "error" ∧
    (_execute_step env_empty_exc step_llm).data = StepData.empty ∧
    (_execute_step env_empty_exc step_llm).error_message = "" ∧
    ¬(((_execute_step env_empty_exc step_llm).status = "error") ↔
      (_execute_step env_empty_exc step_llm).error_message ≠ "") := by
  decide

/-- C3 amended: for every `StepResult` the executor produces, status
`"error"` is equivalent to an empty payload, and — provided every exception
caught at the step boundary carries a non-empty message, which the code
does not itself enforce — also equivalent to a non-empty error message. -/
theorem step_result_invariant_amended (env : StepEnv) (step : PlanStep)
    (hllm : ∀ p m, env.llm p = Except.error m → m ≠ "") :
    ((_execute_step env step).status = "error" ↔
      (_execute_step env step).data = StepData.empty) ∧
    ((_execute_step env step).status = "error" ↔
      (_execute_step env step).error_message ≠ "") := by
  cases hr : tool_route step with
  | github =>
      have hx : _execute_step env step =
          success_result step (_call_github_tool env step) := by
        unfold _execute_step
        rw [hr]
      rw [hx]
      simp [success_result]
  | news =>
      have hx : _execute_step env step =
          success_result step (_call_news_tool env step) := by
        unfold _execute_step
        rw [hr]
      rw [hx]
      simp [success_result]
  | llm =>
      cases hc : _call_llm env step with
      | ok d =>
          have hx : _execute_step env step = success_result step d := by
            unfold _execute_step
            rw [hr, hc]
          rw [hx]
          simp [success_result]
      | error m =>
          have hm : m ≠ "" := by
            unfold _call_llm at hc
            cases he : env.llm (step.parameters.prompt.getD "Summarize the data") with
            | ok s =>
                rw [he] at hc
                exact absurd hc (by simp [Except.map])
            | error m2 =>
                rw [he] at hc
                have hmm : m2 = m := by
                  simpa [Except.map] using hc
                exact hmm ▸ hllm _ m2 he
          have hx : _execute_step env step = caught_error_result step m := by
            unfold _execute_step
            rw [hr, hc]
          rw [hx]
          exact ⟨⟨fun _ => rfl, fun _ => rfl⟩, ⟨fun _ => hm, fun _ => rfl⟩⟩
  | unknown =>
      have hmsg : ("Unknown tool: " ++ step.tool) ≠ "" := by
        intro h
        have h2 := congrArg String.data h
        rw [String.data_append] at h2
        simp at h2
      have hx : _execute_step env step =
          { step_number := step.step_number
            action := step.action
            tool_used := step.tool
            status := "error"
            data := StepData.empty
            error_message := "Unknown tool: " ++ step.tool } := by
        unfold _execute_step
        rw [hr]
      rw [hx]
      exact ⟨⟨fun _ => rfl, fun _ => rfl⟩, ⟨fun _ => hmsg, fun _ => rfl⟩⟩

/-- Environment whose language-model call fails with a descriptive
message. -/
def env_msg : StepEnv :=
  { githubHttp := Except.error "t"
    newsHttp := Except.ok { status := some "ok" }
    llm := fun _ => Except.error "rate limit exceeded" }

/-- Witness for the amended C3 on an environment whose exception messages
are non-empty. -/
theorem step_result_invariant_amended_witness :
    ((_execute_step env_msg step_llm).status = "error" ↔
      (_execute_step env_msg step_llm).error_message ≠ "") :=
  (step_result_invariant_amended env_msg step_llm
    (by
      intro p m h
      injection h with h2
      rw [← h2]
      decide)).2

/-! ### C6 — confidence score -/

/-- C6: for a non-empty step-result list, the verifier's confidence score
is exactly successes / total and lies in the interval from 0 to 1. -/
theorem confidence_score_ratio (t : String) (plan : ExecutionPlan)
    (er : ExecutionResult) (s : String) (hne : er.step_results ≠ []) :
    (verify_and_format t plan er s).confidence_score =
      ((er.step_results.countP (fun r => r.status == "success") : ℚ)) /
        ((er.step_results.length : ℚ)) ∧
    0 ≤ (verify_and_format t plan er s).confidence_score ∧
    (verify_and_format t plan er s).confidence_score ≤ 1 := by
  have hdef : (verify_and_format t plan er s).confidence_score =
      ((er.step_results.countP (fun r => r.status == "success") : ℚ)) /
        ((er.step_results.length : ℚ)) := rfl
  have hlen : 0 < er.step_results.length := List.length_pos.mpr hne
  have hcle : er.step_results.countP (fun r => r.status == "success") ≤
      er.step_results.length := List.countP_le_length _
  refine ⟨hdef, ?_, ?_⟩
  · rw [hdef]
    exact div_nonneg (by positivity) (by positivity)
  · rw [hdef]
    rw [div_le_one (by exact_mod_cast hlen)]
    exact_mod_cast hcle

/-- Witness for C6 on a concrete half-successful execution result. -/
theorem confidence_score_ratio_witness :
    0 ≤ (verify_and_format "t" plan_none er_mixed "sum").confidence_score :=
  (confidence_score_ratio "t" plan_none er_mixed "sum" (by decide)).2.1

/-! ### C7 — partition of step results into data and issues -/

/-- A `dict_set` whose key is absent appends the binding. -/
lemma dict_set_of_fresh {β : Type} (d : List (String × β)) (k : String) (v : β)
    (h : ∀ p ∈ d, p.1 ≠ k) : dict_set d k v = d ++ [(k, v)] := by
  unfold dict_set
  rw [if_neg]
  intro hany
  rw [List.any_eq_true] at hany
  obtain ⟨p, hp, hpk⟩ := hany
  exact h p hp (by simpa using hpk)

/-- Invariant of the verifier's collection loop: starting from an
accumulator whose keys avoid the labels of the remaining successful steps,
and with those labels pairwise distinct, the loop appends one data entry
per successful step and one issue line per failed step, in order. -/
lemma collect_results_go (l : List StepResult) (d : List (String × StepData))
    (is : List String)
    (hfresh : ∀ r ∈ l, r.status = "success" → ∀ p ∈ d, p.1 ≠ step_key r)
    (hnodup : ((l.filter (fun r => r.status == "success")).map step_key).Nodup) :
    l.foldl
      (fun acc r =>
        if r.status == "success" then (dict_set acc.1 (step_key r) r.data, acc.2)
        else (acc.1, acc.2 ++ [issue_line r]))
      (d, is) =
    (d ++ (l.filter (fun r => r.status == "success")).map
        (fun r => (step_key r, r.data)),
     is ++ (l.filter (fun r => !(r.status == "success"))).map issue_line) := by
  induction l generalizing d is with
  | nil => simp
  | cons r t ih =>
      by_cases hs : r.status = "success"
      · have hb : (r.status == "success") = true := by simpa using hs
        have hfilter_pos : (r :: t).filter (fun x => x.status == "success") =
            r :: t.filter (fun x => x.status == "success") := by
          simp [List.filter_cons, hb]
        have hfilter_neg : (r :: t).filter (fun x => !(x.status == "success")) =
            t.filter (fun x => !(x.status == "success")) := by
          simp [List.filter_cons, hb]
        have hsplit : (step_key r ∉
            (t.filter (fun x => x.status == "success")).map step_key) ∧
            ((t.filter (fun x => x.status == "success")).map step_key).Nodup := by
          rw [hfilter_pos, List.map_cons, List.nodup_cons] at hnodup
          exact hnodup
        have hset : dict_set d (step_key r) r.data = d ++ [(step_key r, r.data)] :=
          dict_set_of_fresh d (step_key r) r.data (hfresh r (List.mem_cons_self r t) hs)
        have hfresh' : ∀ r' ∈ t, r'.status = "success" →
            ∀ p ∈ d ++ [(step_key r, r.data)], p.1 ≠ step_key r' := by
          intro r' hr' hs' p hp
          rcases List.mem_append.mp hp with hpd | hps
          · exact hfresh r' (List.mem_cons_of_mem r hr') hs' p hpd
          · have hpe : p = (step_key r, r.data) := by simpa using hps
            rw [hpe]
            intro hcontra
            have hkey : step_key r = step_key r' := hcontra
            apply hsplit.1
            rw [hkey]
            exact List.mem_map_of_mem step_key
              (List.mem_filter.mpr ⟨hr', by simpa using hs'⟩)
        rw [List.foldl_cons]
        simp only [hb]
        rw [if_pos (by simp), hset,
          ih (d ++ [(step_key r, r.data)]) is hfresh' hsplit.2,
          hfilter_pos, hfilter_neg]
        simp
      · have hb : (r.status == "success") = false := by simpa using hs
        have hfilter_pos : (r :: t).filter (fun x => x.status == "success") =
            t.filter (fun x => x.status == "success") := by
          simp [List.filter_cons, hb]
        have hfilter_neg : (r :: t).filter (fun x => !(x.status == "success")) =
            r :: t.filter (fun x => !(x.status == "success")) := by
          simp [List.filter_cons, hb]
        have htail : ((t.filter (fun x => x.status == "success")).map step_key).Nodup := by
          rw [hfilter_pos] at hnodup
          exact hnodup
        have hfresh' : ∀ r' ∈ t, r'.status = "success" →
            ∀ p ∈ d, p.1 ≠ step_key r' :=
          fun r' hr' => hfresh r' (List.mem_cons_of_mem r hr')
        rw [List.foldl_cons]
        simp only [hb]
        rw [if_neg (by simp), ih d (is ++ [issue_line r]) hfresh' htail,
          hfilter_pos, hfilter_neg]
        simp

/-- The verifier's collection loop, run from the empty accumulators, yields
the in-order data entries of the successful steps and the in-order issue
lines of the failed ones, provided the success labels are distinct. -/
lemma collect_results_eq (l : List StepResult)
    (hnodup : ((l.filter (fun r => r.status == "success")).map step_key).Nodup) :
    collect_results l =
      ((l.filter (fun r => r.status == "success")).map (fun r => (step_key r, r.data)),
       (l.filter (fun r => !(r.status == "success"))).map issue_line) := by
  unfold collect_results
  rw [collect_results_go l [] []
    (by intro r _ _ p hp; exact absurd hp (List.not_mem_nil p)) hnodup]
  simp

/-- Two successful steps that share the sequence index 1 but carry
different payloads. -/
def dup_success (d : String) : StepResult :=
  { step_number := 1, action := "a", tool_used := "llm", status := "success",
    data := StepData.tool (ToolData.summary d), error_message := "" }

/-- Execution result whose two successful steps collide on the dict key
`"step_1"`. -/
def er_dup : ExecutionResult :=
  { plan_description := "p", step_results := [dup_success "x", dup_success "y"],
    overall_status := "success" }

/-- Counterexample to C7 as stated: with two successful steps sharing a
sequence index, the data mapping holds one entry, not one entry per
successful `StepResult` — the second payload overwrites the first. -/
theorem verifier_partition_counterexample :
    (verify_and_format "t" plan_none er_dup "s").data.length = 1 ∧
    (er_dup.step_results.filter (fun r => r.status == "success")).length = 2 ∧
    (verify_and_format "t" plan_none er_dup "s").data ≠
      (er_dup.step_results.filter (fun r => r.status == "success")).map
        (fun r => (step_key r, r.data)) := by
  decide

/-- C7 amended: provided the successful steps' labels `step_{n}` are
pairwise distinct (in particular whenever their sequence indices are), the
verifier's data mapping has exactly one entry per successful `StepResult`,
in order, keyed `step_{n}` and holding that step's payload; the issues list
unconditionally has exactly one string per failed `StepResult`, formatted
`Step {n} failed: {message}`. -/
theorem verifier_partition_amended (t : String) (plan : ExecutionPlan)
    (er : ExecutionResult) (s : String)
    (hnodup : ((er.step_results.filter (fun r => r.status == "success")).map
      step_key).Nodup) :
    (verify_and_format t plan er s).data =
      (er.step_results.filter (fun r => r.status == "success")).map
        (fun r => (step_key r, r.data)) ∧
    (verify_and_format t plan er s).issues =
      (er.step_results.filter (fun r => !(r.status == "success"))).map issue_line := by
  have hd : (verify_and_format t plan er s).data =
      (collect_results er.step_results).1 := rfl
  have hi : (verify_and_format t plan er s).issues =
      (collect_results er.step_results).2 := rfl
  rw [hd, hi, collect_results_eq er.step_results hnodup]
  exact ⟨rfl, rfl⟩

/-- Witness for the amended C7 on a concrete half-successful result. -/
theorem verifier_partition_amended_witness :
    (verify_and_format "t" plan_none er_mixed "sum").issues =
      (er_mixed.step_results.filter (fun r => !(r.status == "success"))).map
        issue_line :=
  (verifier_partition_amended "t" plan_none er_mixed "sum" (by decide)).2

/-! ### C9 — code-fence stripping and structured-output errors -/

deriving instance DecidableEq for Except

/-- Concrete output shape for exercising `generate_structured_output`: it
accepts exactly the text `"42"` and reports `"invalid JSON"` otherwise. -/
def nat42_shape : Shape Nat :=
  { name := "ExecutionPlan"
    parse := fun s => if s = "42" then Except.ok 42 else Except.error "invalid JSON" }

/-- Counterexample to C9 as stated: a fence tagged with a language other
than `json` is not stripped — the tag text survives cleaning, so the
remainder is not the fence interior and parsing fails, while the same
interior under a `json` tag parses fine. -/
theorem fence_language_tag_counterexample :
    clean_response "```python\n42\n```" = "python\n42" ∧
    clean_response "```json\n42\n```" = "42" ∧
    ("python\n42" : String) ≠ "42" ∧
    generate_structured_output nat42_shape "```json\n42\n```" = Except.ok 42 ∧
    generate_structured_output nat42_shape "```python\n42\n```" =
      Except.error ("Failed to parse LLM response as " ++ "ExecutionPlan" ++ ": " ++
        "invalid JSON" ++ "\nResponse: " ++ "python\n42") := by
  decide

/-- C9 amended: the generator strips leading/trailing triple-backtick
fences that are untagged or tagged exactly `json` (other language tags are
left in place), and on parse or validation failure it fails with an error
naming the target shape and containing the cleaned text truncated to 200
characters. -/
theorem fence_stripping_amended {α : Type} (shape : Shape α) (raw : String) :
    (py_startswith (py_strip raw) "```json" = true →
      py_startswith (py_drop (py_strip raw) 7) "```" = false →
      py_endswith (py_drop (py_strip raw) 7) "```" = true →
      clean_response raw = py_strip (py_droplast (py_drop (py_strip raw) 7) 3)) ∧
    (py_startswith (py_strip raw) "```json" = false →
      py_startswith (py_strip raw) "```" = true →
      py_endswith (py_drop (py_strip raw) 3) "```" = true →
      clean_response raw = py_strip (py_droplast (py_drop (py_strip raw) 3) 3)) ∧
    (∀ e : String, shape.parse (clean_response raw) = Except.error e →
      generate_structured_output shape raw =
        Except.error ("Failed to parse LLM response as " ++ shape.name ++ ": " ++ e ++
          "\nResponse: " ++ py_take (clean_response raw) 200)) := by
  refine ⟨?_, ?_, ?_⟩
  · intro h1 h2 h3
    simp only [clean_response, h1, h2, h3, if_true, Bool.false_eq_true, if_false]
  · intro h1 h2 h3
    simp only [clean_response, h1, h2, h3, if_true, Bool.false_eq_true, if_false]
  · intro e hparse
    simp only [generate_structured_output]
    rw [hparse]

/-- Witness for the amended C9: a `json`-tagged fence is stripped down to
its interior, and a failing parse yields the descriptive error. -/
theorem fence_stripping_amended_witness :
    clean_response "```json\n42\n```" =
      py_strip (py_droplast (py_drop (py_strip "```json\n42\n```") 7) 3) ∧
    generate_structured_output nat42_shape "```json\nnope\n```" =
      Except.error ("Failed to parse LLM response as " ++ nat42_shape.name ++ ": " ++
        "invalid JSON" ++ "\nResponse: " ++
        py_take (clean_response "```json\nnope\n```") 200) :=
  ⟨(fence_stripping_amended nat42_shape "```json\n42\n```").1
      (by decide) (by decide) (by decide),
   (fence_stripping_amended nat42_shape "```json\nnope\n```").2.2
      "invalid JSON" (by decide)⟩
